import Mathlib

/-!
Verification of the `TimeTracker` deadline-tracking utility
(`src/TimeTracker.h`), a shallow embedding of its data model and operations.

A `timeval` is a pair of machine integers (`time_t tv_sec`,
`suseconds_t tv_usec`); both are signed, so they are modelled as `Int`.
The tracker holds two `timeval` fields, `timeout` and `now`, and its
member functions mutate `now`; here each member function takes the
tracker state and returns the result paired with the updated state.
-/

/-- `struct timeval`: seconds plus sub-second microseconds, both signed. -/
structure timeval where
  tv_sec : Int
  tv_usec : Int
deriving Repr, DecidableEq

/-- `static constexpr unsigned int MICROSECONDS = 1000000`. -/
def MICROSECONDS : Int := 1000000

/-- `compare_timevals(left, right)`: lexicographic comparison, seconds
first, then microseconds; returns -1, 0 or 1. -/
def compare_timevals (left right : timeval) : Int :=
  if left.tv_sec < right.tv_sec then -1
  else if left.tv_sec > right.tv_sec then 1
  else if left.tv_usec < right.tv_usec then -1
  else if left.tv_usec > right.tv_usec then 1
  else 0

/-- `add_timevals(left, right)`: fieldwise sum with a single carry of the
microsecond field into the seconds field when it reaches `MICROSECONDS`. -/
def add_timevals (left right : timeval) : timeval :=
  let s := left.tv_sec + right.tv_sec
  let u := left.tv_usec + right.tv_usec
  if u ≥ MICROSECONDS then { tv_sec := s + 1, tv_usec := u - MICROSECONDS }
  else { tv_sec := s, tv_usec := u }

/-- The `TimeTracker` class state: the configured `timeout` and the
current-time checkpoint `now`. -/
structure TimeTracker where
  timeout : timeval
  now : timeval
deriving Repr, DecidableEq

/-- `bool is_timed_out(timeval current_time, timeval timeout)`: guard
against a stale sample, compute the deadline from the *old* checkpoint,
unconditionally advance `now`, and compare the updated `now` against the
deadline. Returns the boolean result and the updated state. -/
def is_timed_out (t : TimeTracker) (current_time timeout : timeval) :
    Bool × TimeTracker :=
  if compare_timevals t.now current_time > 0 then (false, t)
  else
    let deadline := add_timevals t.now timeout
    let t' : TimeTracker := { t with now := current_time }
    (decide (compare_timevals t'.now deadline > 0), t')

/-- `bool is_timed_out(timeval current_time)`: the one-argument overload,
delegating with the configured default timeout. -/
def is_timed_out_default (t : TimeTracker) (current_time : timeval) :
    Bool × TimeTracker :=
  is_timed_out t current_time t.timeout

/-- `bool is_timed_out_and_update_if_timed_out(timeval current_time)`:
same guard, compare the unmutated `current_time` against the deadline,
and advance `now` only when the result is `true`. -/
def is_timed_out_and_update_if_timed_out (t : TimeTracker)
    (current_time : timeval) : Bool × TimeTracker :=
  if compare_timevals t.now current_time > 0 then (false, t)
  else
    let deadline := add_timevals t.now t.timeout
    let result := decide (compare_timevals current_time deadline > 0)
    (result, if result then { t with now := current_time } else t)

/-- `bool is_timed_out_and_update_if_timed_out(time_point)`: the
wall-clock overload truncates to whole seconds and delegates. -/
def is_timed_out_and_update_if_timed_out_tp (t : TimeTracker)
    (current_time_seconds : Int) : Bool × TimeTracker :=
  is_timed_out_and_update_if_timed_out t
    { tv_sec := current_time_seconds, tv_usec := 0 }

/-- `void set_timeout(time_t timeout_us)`: decompose a flattened
microsecond count by C++ signed division and remainder (truncation
toward zero, hence `Int.tdiv` / `Int.tmod`). -/
def set_timeout (t : TimeTracker) (timeout_us : Int) : TimeTracker :=
  { t with
    timeout :=
      { tv_sec := Int.tdiv timeout_us MICROSECONDS
        tv_usec := Int.tmod timeout_us MICROSECONDS } }

/-- `uint32_t get_timeout_us()`: the flattened count
`tv_sec * MICROSECONDS + tv_usec`, computed in 64-bit signed arithmetic
and converted to `uint32_t`, i.e. reduced modulo `2 ^ 32`. -/
def get_timeout_us (t : TimeTracker) : Int :=
  (t.timeout.tv_sec * MICROSECONDS + t.timeout.tv_usec) % (2 ^ 32)

/-- The flattened microsecond value of a time value. -/
def flat (a : timeval) : Int := a.tv_sec * MICROSECONDS + a.tv_usec

/-- Strict two-field lexicographic order on time values. -/
def lexLt (a b : timeval) : Prop :=
  a.tv_sec < b.tv_sec ∨ (a.tv_sec = b.tv_sec ∧ a.tv_usec < b.tv_usec)

/-- Reflexive two-field lexicographic order on time values. -/
def lexLe (a b : timeval) : Prop :=
  a.tv_sec < b.tv_sec ∨ (a.tv_sec = b.tv_sec ∧ a.tv_usec ≤ b.tv_usec)

instance (a b : timeval) : Decidable (lexLt a b) := by
  unfold lexLt; infer_instance

instance (a b : timeval) : Decidable (lexLe a b) := by
  unfold lexLe; infer_instance

/-- The timeout-check operations performed between `set_now` calls
(`is_timed_out` with an override, the default overload, and
`is_timed_out_and_update_if_timed_out`). -/
inductive TrackerOp where
  | check (current_time timeout : timeval)
  | checkDefault (current_time : timeval)
  | checkOnlyIf (current_time : timeval)
deriving Repr, DecidableEq

/-- Execute one timeout-check operation, keeping only the state. -/
def stepOp (t : TimeTracker) : TrackerOp → TimeTracker
  | TrackerOp.check ct tm => (is_timed_out t ct tm).2
  | TrackerOp.checkDefault ct => (is_timed_out_default t ct).2
  | TrackerOp.checkOnlyIf ct => (is_timed_out_and_update_if_timed_out t ct).2

/-- Execute a sequence of timeout-check operations. -/
def runOps (t : TimeTracker) (ops : List TrackerOp) : TimeTracker :=
  ops.foldl stepOp t

section CompareLemmas

lemma compare_timevals_eq_one_iff (a b : timeval) :
    compare_timevals a b = 1 ↔ lexLt b a := by
  unfold compare_timevals lexLt
  split_ifs <;> constructor <;> intro h <;> first | exact h.elim | omega

lemma compare_timevals_pos_iff (a b : timeval) :
    compare_timevals a b > 0 ↔ lexLt b a := by
  unfold compare_timevals lexLt
  split_ifs <;> constructor <;> intro h <;> first | exact h.elim | omega

lemma compare_timevals_not_pos_iff (a b : timeval) :
    ¬ compare_timevals a b > 0 ↔ lexLe a b := by
  unfold compare_timevals lexLe
  split_ifs <;> constructor <;> intro h <;> first | exact h.elim | omega

lemma compare_timevals_eq_zero_iff (a b : timeval) :
    compare_timevals a b = 0 ↔ a = b := by
  unfold compare_timevals
  obtain ⟨as, au⟩ := a
  obtain ⟨bs, bu⟩ := b
  simp only [timeval.mk.injEq]
  split_ifs <;> constructor <;> intro h <;> first | exact h.elim | omega

lemma lexLe_refl (a : timeval) : lexLe a a := by
  unfold lexLe; omega

lemma lexLe_trans {a b c : timeval} (h1 : lexLe a b) (h2 : lexLe b c) :
    lexLe a c := by
  unfold lexLe at *; omega

end CompareLemmas

lemma stepOp_now_le (t : TimeTracker) (op : TrackerOp) :
    lexLe t.now (stepOp t op).now := by
  cases op with
  | check ct tm =>
    simp only [stepOp]
    unfold is_timed_out
    split_ifs with hg
    · exact lexLe_refl _
    · exact (compare_timevals_not_pos_iff _ _).1 hg
  | checkDefault ct =>
    simp only [stepOp]
    unfold is_timed_out_default is_timed_out
    split_ifs with hg
    · exact lexLe_refl _
    · exact (compare_timevals_not_pos_iff _ _).1 hg
  | checkOnlyIf ct =>
    simp only [stepOp]
    unfold is_timed_out_and_update_if_timed_out
    split_ifs with hg
    · exact lexLe_refl _
    · dsimp only
      split_ifs with hr
      · exact (compare_timevals_not_pos_iff _ _).1 hg
      · exact lexLe_refl _

/-- C1: when the checkpoint is at or before `current_time` in the
lexicographic order, `is_timed_out` advances the checkpoint to
`current_time`, returns `true` exactly when the updated checkpoint
strictly exceeds `deadline = old checkpoint + timeout` (the override in
the two-argument overload), and the one-argument overload is the
two-argument overload applied to the configured timeout. -/
theorem is_timed_out_check_and_advance (t : TimeTracker) (ct tm : timeval)
    (h : lexLe t.now ct) :
    (is_timed_out t ct tm).2.now = ct ∧
    ((is_timed_out t ct tm).1 = true ↔ lexLt (add_timevals t.now tm) ct) ∧
    is_timed_out_default t ct = is_timed_out t ct t.timeout := by
  have hg : ¬ compare_timevals t.now ct > 0 :=
    (compare_timevals_not_pos_iff _ _).2 h
  unfold is_timed_out
  rw [if_neg hg]
  refine ⟨rfl, ?_, rfl⟩
  simp [compare_timevals_pos_iff]

theorem is_timed_out_check_and_advance_witness :
    (is_timed_out ⟨⟨5, 0⟩, ⟨100, 0⟩⟩ ⟨106, 0⟩ ⟨5, 0⟩).2.now = ⟨106, 0⟩ ∧
    ((is_timed_out ⟨⟨5, 0⟩, ⟨100, 0⟩⟩ ⟨106, 0⟩ ⟨5, 0⟩).1 = true ↔
      lexLt (add_timevals ⟨100, 0⟩ ⟨5, 0⟩) ⟨106, 0⟩) ∧
    is_timed_out_default ⟨⟨5, 0⟩, ⟨100, 0⟩⟩ ⟨106, 0⟩ =
      is_timed_out ⟨⟨5, 0⟩, ⟨100, 0⟩⟩ ⟨106, 0⟩ ⟨5, 0⟩ :=
  is_timed_out_check_and_advance ⟨⟨5, 0⟩, ⟨100, 0⟩⟩ ⟨106, 0⟩ ⟨5, 0⟩
    (by decide)

/-- C2: `is_timed_out_and_update_if_timed_out` sets the checkpoint to
`current_time` when it returns `true`, leaves the whole state untouched
when it returns `false`, and — once the stale-sample guard passes — its
result is exactly whether the unmutated `current_time` strictly exceeds
`old checkpoint + configured timeout`. -/
theorem update_if_timed_out_mutates_iff (t : TimeTracker) (ct : timeval) :
    ((is_timed_out_and_update_if_timed_out t ct).1 = true →
      (is_timed_out_and_update_if_timed_out t ct).2.now = ct) ∧
    ((is_timed_out_and_update_if_timed_out t ct).1 = false →
      (is_timed_out_and_update_if_timed_out t ct).2 = t) ∧
    (lexLe t.now ct →
      ((is_timed_out_and_update_if_timed_out t ct).1 = true ↔
        lexLt (add_timevals t.now t.timeout) ct)) := by
  unfold is_timed_out_and_update_if_timed_out
  split_ifs with hg
  · refine ⟨by simp, fun _ => rfl, fun h => ?_⟩
    exact absurd hg (by simpa using (compare_timevals_not_pos_iff _ _).2 h)
  · dsimp only
    by_cases hr : compare_timevals ct (add_timevals t.now t.timeout) > 0
    · simp [hr, (compare_timevals_pos_iff _ _).1 hr]
    · have hr' : ¬ lexLt (add_timevals t.now t.timeout) ct := fun hl =>
        hr ((compare_timevals_pos_iff _ _).2 hl)
      simp [hr, hr']

theorem update_if_timed_out_mutates_iff_witness :
    (is_timed_out_and_update_if_timed_out ⟨⟨1, 0⟩, ⟨10, 500000⟩⟩
      ⟨11, 600000⟩).2.now = ⟨11, 600000⟩ :=
  (update_if_timed_out_mutates_iff ⟨⟨1, 0⟩, ⟨10, 500000⟩⟩ ⟨11, 600000⟩).1
    (by decide)

/-- C3: across any sequence of timeout-check operations (`set_now`
excluded) the checkpoint is monotonically non-decreasing in the
lexicographic order; in particular a singleton sequence gives the
per-call statement. -/
theorem checkpoint_monotone (t : TimeTracker) (ops : List TrackerOp) :
    lexLe t.now (runOps t ops).now := by
  induction ops generalizing t with
  | nil => exact lexLe_refl _
  | cons op ops ih => exact lexLe_trans (stepOp_now_le t op) (ih (stepOp t op))

/-- C4: setting the timeout from a non-negative flattened microsecond
count below `2 ^ 32` and reading it back through `get_timeout_us`
returns the same count. -/
theorem set_get_timeout_roundtrip (t : TimeTracker) (c : Int)
    (h0 : 0 ≤ c) (h1 : c < 2 ^ 32) :
    get_timeout_us (set_timeout t c) = c := by
  unfold get_timeout_us set_timeout MICROSECONDS
  dsimp only
  have hdm : Int.tdiv c 1000000 * 1000000 + Int.tmod c 1000000 = c := by
    have h := Int.tdiv_add_tmod c 1000000
    omega
  rw [hdm]
  exact Int.emod_eq_of_lt h0 h1

theorem set_get_timeout_roundtrip_witness :
    get_timeout_us (set_timeout ⟨⟨0, 0⟩, ⟨0, 0⟩⟩ 12345678) = 12345678 :=
  set_get_timeout_roundtrip ⟨⟨0, 0⟩, ⟨0, 0⟩⟩ 12345678 (by decide) (by decide)

/-- C5: on inputs with non-negative fields and normalized microsecond
fields, `add_timevals` produces a normalized microsecond field and its
flattened value is the exact sum of the inputs' flattened values. -/
theorem add_timevals_normalizes (a b : timeval)
    (ha1 : 0 ≤ a.tv_sec) (ha2 : 0 ≤ a.tv_usec) (ha3 : a.tv_usec < 1000000)
    (hb1 : 0 ≤ b.tv_sec) (hb2 : 0 ≤ b.tv_usec) (hb3 : b.tv_usec < 1000000) :
    0 ≤ (add_timevals a b).tv_usec ∧
    (add_timevals a b).tv_usec < 1000000 ∧
    flat (add_timevals a b) = flat a + flat b := by
  unfold add_timevals flat MICROSECONDS
  dsimp only
  split_ifs <;> dsimp only <;> exact ⟨by omega, by omega, by omega⟩

theorem add_timevals_normalizes_witness :
    0 ≤ (add_timevals ⟨3, 700000⟩ ⟨4, 600000⟩).tv_usec ∧
    (add_timevals ⟨3, 700000⟩ ⟨4, 600000⟩).tv_usec < 1000000 ∧
    flat (add_timevals ⟨3, 700000⟩ ⟨4, 600000⟩) =
      flat ⟨3, 700000⟩ + flat ⟨4, 600000⟩ :=
  add_timevals_normalizes ⟨3, 700000⟩ ⟨4, 600000⟩ (by decide) (by decide)
    (by decide) (by decide) (by decide) (by decide)

lemma compare_neg_one_iff_flat (a b : timeval)
    (ha1 : 0 ≤ a.tv_usec) (ha2 : a.tv_usec < 1000000)
    (hb1 : 0 ≤ b.tv_usec) (hb2 : b.tv_usec < 1000000) :
    compare_timevals a b = -1 ↔ flat a < flat b := by
  unfold compare_timevals flat MICROSECONDS
  split_ifs <;> constructor <;> intro h <;> first | exact h.elim | omega

lemma compare_zero_iff_flat (a b : timeval)
    (ha1 : 0 ≤ a.tv_usec) (ha2 : a.tv_usec < 1000000)
    (hb1 : 0 ≤ b.tv_usec) (hb2 : b.tv_usec < 1000000) :
    compare_timevals a b = 0 ↔ flat a = flat b := by
  unfold compare_timevals flat MICROSECONDS
  split_ifs <;> constructor <;> intro h <;> first | exact h.elim | omega

lemma compare_one_iff_flat (a b : timeval)
    (ha1 : 0 ≤ a.tv_usec) (ha2 : a.tv_usec < 1000000)
    (hb1 : 0 ≤ b.tv_usec) (hb2 : b.tv_usec < 1000000) :
    compare_timevals a b = 1 ↔ flat b < flat a := by
  unfold compare_timevals flat MICROSECONDS
  split_ifs <;> constructor <;> intro h <;> first | exact h.elim | omega

/-- C6: on time values with normalized microsecond fields,
`compare_timevals` returns -1, 0 or 1 exactly when the left flattened
value is less than, equal to, or greater than the right one; it is
trichotomous, coincides with equality at 0, and is transitive — a strict
total order matching the flattened order. -/
theorem compare_timevals_flat_order (a b c : timeval)
    (ha1 : 0 ≤ a.tv_usec) (ha2 : a.tv_usec < 1000000)
    (hb1 : 0 ≤ b.tv_usec) (hb2 : b.tv_usec < 1000000)
    (hc1 : 0 ≤ c.tv_usec) (hc2 : c.tv_usec < 1000000) :
    (compare_timevals a b = -1 ↔ flat a < flat b) ∧
    (compare_timevals a b = 0 ↔ flat a = flat b) ∧
    (compare_timevals a b = 1 ↔ flat b < flat a) ∧
    (compare_timevals a b = -1 ∨ compare_timevals a b = 0 ∨
      compare_timevals a b = 1) ∧
    (compare_timevals a b = -1 → compare_timevals b c = -1 →
      compare_timevals a c = -1) := by
  have h1 := compare_neg_one_iff_flat a b ha1 ha2 hb1 hb2
  have h2 := compare_zero_iff_flat a b ha1 ha2 hb1 hb2
  have h3 := compare_one_iff_flat a b ha1 ha2 hb1 hb2
  have hbc := compare_neg_one_iff_flat b c hb1 hb2 hc1 hc2
  have hac := compare_neg_one_iff_flat a c ha1 ha2 hc1 hc2
  exact ⟨h1, h2, h3, by omega,
    fun hab hbc2 => hac.2 (lt_trans (h1.1 hab) (hbc.1 hbc2))⟩

theorem compare_timevals_flat_order_witness :
    (compare_timevals ⟨1, 2⟩ ⟨1, 3⟩ = -1 ↔ flat ⟨1, 2⟩ < flat ⟨1, 3⟩) ∧
    (compare_timevals ⟨1, 2⟩ ⟨1, 3⟩ = 0 ↔ flat ⟨1, 2⟩ = flat ⟨1, 3⟩) ∧
    (compare_timevals ⟨1, 2⟩ ⟨1, 3⟩ = 1 ↔ flat ⟨1, 3⟩ < flat ⟨1, 2⟩) ∧
    (compare_timevals ⟨1, 2⟩ ⟨1, 3⟩ = -1 ∨ compare_timevals ⟨1, 2⟩ ⟨1, 3⟩ = 0 ∨
      compare_timevals ⟨1, 2⟩ ⟨1, 3⟩ = 1) ∧
    (compare_timevals ⟨1, 2⟩ ⟨1, 3⟩ = -1 → compare_timevals ⟨1, 3⟩ ⟨2, 5⟩ = -1 →
      compare_timevals ⟨1, 2⟩ ⟨2, 5⟩ = -1) :=
  compare_timevals_flat_order ⟨1, 2⟩ ⟨1, 3⟩ ⟨2, 5⟩ (by decide) (by decide)
    (by decide) (by decide) (by decide) (by decide)

/-- C7: on a stale sample (checkpoint strictly greater than
`current_time` in the lexicographic order) every timeout-check operation
returns `false` and leaves the whole state — checkpoint and timeout —
unchanged. -/
theorem stale_sample_rejected (t : TimeTracker) (ct : timeval)
    (h : lexLt ct t.now) :
    (∀ tm, is_timed_out t ct tm = (false, t)) ∧
    is_timed_out_default t ct = (false, t) ∧
    is_timed_out_and_update_if_timed_out t ct = (false, t) := by
  have hg : compare_timevals t.now ct > 0 := (compare_timevals_pos_iff _ _).2 h
  refine ⟨fun tm => ?_, ?_, ?_⟩ <;>
    simp [is_timed_out, is_timed_out_default,
      is_timed_out_and_update_if_timed_out, hg]

theorem stale_sample_rejected_witness :
    is_timed_out ⟨⟨0, 0⟩, ⟨5, 0⟩⟩ ⟨3, 0⟩ ⟨1, 0⟩ =
      (false, ⟨⟨0, 0⟩, ⟨5, 0⟩⟩) :=
  (stale_sample_rejected ⟨⟨0, 0⟩, ⟨5, 0⟩⟩ ⟨3, 0⟩ (by decide)).1 ⟨1, 0⟩

/-- C8: none of the timeout-check operations (both `is_timed_out`
overloads, `is_timed_out_and_update_if_timed_out` and its wall-clock
overload) ever changes the configured timeout field. -/
theorem timeout_field_unchanged (t : TimeTracker) (ct tm : timeval)
    (s : Int) :
    (is_timed_out t ct tm).2.timeout = t.timeout ∧
    (is_timed_out_default t ct).2.timeout = t.timeout ∧
    (is_timed_out_and_update_if_timed_out t ct).2.timeout = t.timeout ∧
    (is_timed_out_and_update_if_timed_out_tp t s).2.timeout = t.timeout := by
  refine ⟨?_, ?_, ?_, ?_⟩
  · unfold is_timed_out
    split_ifs <;> rfl
  · unfold is_timed_out_default is_timed_out
    split_ifs <;> rfl
  · unfold is_timed_out_and_update_if_timed_out
    split_ifs <;> dsimp only <;> split_ifs <;> rfl
  · unfold is_timed_out_and_update_if_timed_out_tp
      is_timed_out_and_update_if_timed_out
    split_ifs <;> dsimp only <;> split_ifs <;> rfl

/-- C9: `is_timed_out` with the configured timeout and
`is_timed_out_and_update_if_timed_out` always return the same boolean at
the same state and input, and when that boolean is `true` they also land
in the same state; they differ only in whether the checkpoint advances
on a `false` result. -/
theorem variants_agree (t : TimeTracker) (ct : timeval) :
    (is_timed_out_default t ct).1 =
      (is_timed_out_and_update_if_timed_out t ct).1 ∧
    ((is_timed_out_default t ct).1 = true →
      (is_timed_out_default t ct).2 =
        (is_timed_out_and_update_if_timed_out t ct).2) := by
  unfold is_timed_out_default is_timed_out
    is_timed_out_and_update_if_timed_out
  split_ifs with hg
  · exact ⟨rfl, by simp⟩
  · dsimp only
    by_cases hr : compare_timevals ct (add_timevals t.now t.timeout) > 0 <;>
      simp [hr]

theorem variants_agree_witness :
    (is_timed_out_default ⟨⟨1, 0⟩, ⟨10, 500000⟩⟩ ⟨12, 0⟩).2 =
      (is_timed_out_and_update_if_timed_out ⟨⟨1, 0⟩, ⟨10, 500000⟩⟩
        ⟨12, 0⟩).2 :=
  (variants_agree ⟨⟨1, 0⟩, ⟨10, 500000⟩⟩ ⟨12, 0⟩).2 (by decide)

lemma not_lexLt_add_self (a tm : timeval) (h1 : 0 ≤ tm.tv_sec)
    (h2 : 0 ≤ tm.tv_usec) : ¬ lexLt (add_timevals a tm) a := by
  unfold add_timevals lexLt MICROSECONDS
  dsimp only
  split_ifs <;> dsimp only <;> omega

/-- C10: with a timeout whose fields are non-negative, a second
consecutive `is_timed_out` call with the same `current_time` always
returns `false`: the repeated sample passes the guard, and the
re-advanced checkpoint cannot strictly exceed `current_time + timeout`. -/
theorem repeated_sample_not_timed_out (t : TimeTracker) (ct : timeval)
    (h1 : 0 ≤ t.timeout.tv_sec) (h2 : 0 ≤ t.timeout.tv_usec) :
    (is_timed_out_default (is_timed_out_default t ct).2 ct).1 = false := by
  by_cases hg : compare_timevals t.now ct > 0
  · have hst : (is_timed_out_default t ct).2 = t := by
      unfold is_timed_out_default is_timed_out
      rw [if_pos hg]
    rw [hst]
    unfold is_timed_out_default is_timed_out
    rw [if_pos hg]
  · have hst : (is_timed_out_default t ct).2 = { t with now := ct } := by
      unfold is_timed_out_default is_timed_out
      rw [if_neg hg]
    rw [hst]
    unfold is_timed_out_default is_timed_out
    have hself : ¬ compare_timevals
        ({ t with now := ct } : TimeTracker).now ct > 0 :=
      (compare_timevals_not_pos_iff ct ct).2 (lexLe_refl ct)
    rw [if_neg hself]
    dsimp only
    simp only [decide_eq_false_iff_not, compare_timevals_pos_iff]
    exact not_lexLt_add_self ct t.timeout h1 h2

theorem repeated_sample_not_timed_out_witness :
    (is_timed_out_default
      (is_timed_out_default ⟨⟨5, 0⟩, ⟨0, 0⟩⟩ ⟨10, 0⟩).2 ⟨10, 0⟩).1 = false :=
  repeated_sample_not_timed_out ⟨⟨5, 0⟩, ⟨0, 0⟩⟩ ⟨10, 0⟩ (by decide)
    (by decide)
